import Mathlib

/-!
Verification development for the probnum repository.

This file embeds, as Lean definitions, the parts of the repository that the
verified properties talk about:

* the variant dispatch performed by the factory method of the Normal
  distribution class (src/probnum/probability/distributions/normal.py,
  method Normal.__new__),
* the shape validation performed by the constructors of the multivariate,
  matrix-variate and operator-variate Normal variants,
* the arithmetic dunder methods of the Normal class and its subclasses,
* the sampling routine of the symmetric-Kronecker-identical-factors variant,
* the directly computed posterior formulas appearing in the linear solver
  test suite (tests/test_linalg/test_linearsolvers/test_linearsolvers.py),
* the random-variable list wrapper (src/probnum/prob/randomvariablelist.py).

Machine floating point arithmetic is idealised as exact rational arithmetic;
external library calls (scipy cholesky factorisation, numpy squeeze) are
abstracted as function parameters.  Repository modules that are referenced by
the embedded code but whose source is not available (linear_operators, the
Dirac distribution, the RandomVariable wrapper) are modelled from the
specification; every such definition carries a doc comment saying so.
-/

namespace Probnum

open Matrix

/-- Kind of a Python object passed as the mean or cov argument of the
Normal factory.  Each constructor records the information the dispatch in
Normal.__new__ inspects: the numpy shape and the type of the object.  The
symkron constructor carries the flag stored by SymmetricKronecker in the
attribute named by joining an underscore with ABequal, which is true exactly
when the two factors are identical. -/
inductive PyKind where
  | scalar
  | ndarray (shape : List Nat)
  | spmatrix (shape : List Nat)
  | linop (shape : List Nat)
  | kronecker (shape : List Nat)
  | symkron (abEqual : Bool) (shape : List Nat)
  | otherObj (typeName : String) (shape : List Nat)
deriving DecidableEq

/-- Embedding of np.isscalar for the object kinds above. -/
def PyKind.isscalar : PyKind → Bool
  | .scalar => true
  | _ => false

/-- Embedding of np.shape: every kind other than a Python scalar exposes its
shape attribute; a scalar has the empty shape. -/
def PyKind.npShape : PyKind → List Nat
  | .scalar => []
  | .ndarray s => s
  | .spmatrix s => s
  | .linop s => s
  | .kronecker s => s
  | .symkron _ s => s
  | .otherObj _ s => s

/-- Embedding of isinstance(x, (np.ndarray, scipy.sparse.spmatrix)). -/
def PyKind.isDenseOrSparse : PyKind → Bool
  | .ndarray _ => true
  | .spmatrix _ => true
  | _ => false

/-- Embedding of isinstance(x, scipy.sparse.linalg.LinearOperator): the
probnum operators (generic, Kronecker, SymmetricKronecker) all subclass it. -/
def PyKind.isLinearOperator : PyKind → Bool
  | .linop _ => true
  | .kronecker _ => true
  | .symkron _ _ => true
  | _ => false

/-- Embedding of the test for a SymmetricKronecker covariance whose two
factors are identical, used by the dispatch to pick the cheap sampling
variant. -/
def PyKind.isSymKronABequal : PyKind → Bool
  | .symkron b _ => b
  | _ => false

/-- Python class name of the object, as used by the error message of the
factory method. -/
def PyKind.typeName : PyKind → String
  | .scalar => "float"
  | .ndarray _ => "ndarray"
  | .spmatrix _ => "csr_matrix"
  | .linop _ => "LinearOperator"
  | .kronecker _ => "Kronecker"
  | .symkron _ _ => "SymmetricKronecker"
  | .otherObj n _ => n

/-- The list of shapes treated as one-dimensional by Normal.__new__. -/
def dim1shapes : List (List Nat) := [[1, 1], [1], []]

/-- The five Normal subclasses the factory method can instantiate. -/
inductive NormalVariant where
  | univariate
  | multivariate
  | matrixvariate
  | operatorvariate
  | symmetricKroneckerIdenticalFactors
deriving DecidableEq

/-- The condition under which the dispatch selects the univariate subclass:
both parameters are numpy scalars, or both have one of the shapes listed in
dim1shapes (the condition on normal.py lines 66 and 67). -/
def univCond (mean cov : PyKind) : Prop :=
  (mean.isscalar ∧ cov.isscalar)
    ∨ (mean.npShape ∈ dim1shapes ∧ cov.npShape ∈ dim1shapes)

instance (mean cov : PyKind) : Decidable (univCond mean cov) := by
  unfold univCond; infer_instance

/-- Embedding of the dispatch in Normal.__new__ (normal.py lines 61 to 87):
scalar or effectively scalar parameters give the univariate subclass, dense
or sparse arrays give the multivariate or matrix-variate subclass depending
on the dimensionality of the mean, linear operators give the
operator-variate subclass with the symmetric Kronecker specialisation, and
every other combination raises a ValueError naming the two types. -/
def normalNew (mean cov : PyKind) : Except String NormalVariant :=
  if univCond mean cov then
    .ok .univariate
  else if mean.isDenseOrSparse ∧ cov.isDenseOrSparse then
    if mean.npShape.length = 1 then .ok .multivariate else .ok .matrixvariate
  else if mean.isLinearOperator ∨ cov.isLinearOperator then
    if cov.isSymKronABequal then .ok .symmetricKroneckerIdenticalFactors
    else .ok .operatorvariate
  else
    .error ("Cannot instantiate normal distributions with mean of type "
      ++ mean.typeName ++ " and covariance of type " ++ cov.typeName ++ ".")

/-- Embedding of the constructor checks of the class handling multivariate
normal distributions (normal.py lines 315 to 327).  The shapes are numpy
shapes; the flattened size of the mean is the product of its shape. -/
def MultivariateNormal_init (meanShape covShape : List Nat) :
    Except String Unit :=
  if covShape.length ≠ 2 then
    .error "Covariance must be a 2D matrix or linear operator."
  else if meanShape.prod ≠ covShape.headD 0
      ∨ meanShape.prod ≠ (covShape.drop 1).headD 0 then
    .error ("Shape mismatch of mean and covariance. Total number of elements of the mean must match "
      ++ "the first and second dimension of the covariance.")
  else
    .ok ()

/-- Embedding of the constructor checks of the class handling matrix-variate
normal distributions (normal.py lines 378 to 390). -/
def MatrixvariateNormal_init (meanShape covShape : List Nat) :
    Except String Unit :=
  if covShape.length ≠ 2 then
    .error "Covariance must be a 2D matrix."
  else if meanShape.prod ≠ covShape.headD 0
      ∨ meanShape.prod ≠ (covShape.drop 1).headD 0 then
    .error ("Shape mismatch of mean and covariance. Total number of elements of the mean must match "
      ++ "the first and second dimension of the covariance.")
  else
    .ok ()

/-- Statement of the C3 claim as a function: the constructor fails with the
dimensionality message when cov is not two-dimensional, fails with the
mismatch message when cov is not square of the flattened mean size, and
succeeds otherwise. -/
def c3ClaimInit (msgNot2D msgMismatch : String)
    (meanShape covShape : List Nat) : Except String Unit :=
  if covShape.length ≠ 2 then .error msgNot2D
  else if covShape ≠ [meanShape.prod, meanShape.prod] then .error msgMismatch
  else .ok ()

/-- Covariance argument of the operator-variate constructor.  The Kronecker
constructor carries the four shape entries of its two factors.  The
SymmetricKronecker constructor carries one dimension: `Modelled from the
spec:` the linear_operators module is not under src, and per the spec a
symmetric Kronecker product acts on vectorised symmetric matrices, so its
two factors are square operators of one common dimension. -/
inductive OpCov where
  | kron (a0 a1 b0 b1 : Nat)
  | symkron (p : Nat)
  | generic (c0 c1 : Nat)
deriving DecidableEq

/-- Embedding of the constructor checks of the operator-variate Normal class
(normal.py lines 441 to 468) for a mean of shape (m, n).  For a Kronecker
covariance all four factor shape entries are compared against the mean
shape; for a symmetric Kronecker covariance the mean must be square and the
first dimension of factor A and second dimension of factor B must match it;
in the general case the covariance shape must be square of the flattened
mean size. -/
def OperatorvariateNormal_init (m n : Nat) (cov : OpCov) :
    Except String Unit :=
  match cov with
  | .kron a0 a1 b0 b1 =>
    if m ≠ a0 ∨ m ≠ a1 ∨ n ≠ b0 ∨ n ≠ b1 then
      .error "Kronecker structured covariance must have factors with the same shape as the mean."
    else .ok ()
  | .symkron p =>
    if m ≠ n ∨ n ≠ p ∨ n ≠ p then
      .error ("Normal distributions with symmetric Kronecker structured covariance must have square mean"
        ++ " and square covariance factors with matching dimensions.")
    else .ok ()
  | .generic c0 c1 =>
    if m * n ≠ c0 ∨ m * n ≠ c1 then
      .error "Shape mismatch of mean and covariance."
    else .ok ()

/-- Embedding of the constructor checks of the symmetric-Kronecker
identical-factors Normal class (normal.py lines 528 to 537): the same check
as the parent class for the symmetric Kronecker case, followed by the call
to the parent constructor. -/
def SKIFNormal_init (m n p : Nat) : Except String Unit :=
  if m ≠ n ∨ n ≠ p ∨ n ≠ p then
    .error ("Normal distributions with symmetric Kronecker structured covariance must have square mean"
      ++ " and square covariance factors with matching dimensions.")
  else OperatorvariateNormal_init m n (.symkron p)

/-! Arithmetic dunder methods of the Normal class (normal.py lines 113 to
268).  The parameter values (means, covariances, point-mass supports) live in
an abstract algebraic type; the classification of the second operand after
the asdist conversion is an explicit sum: `Modelled from the spec:` the
distribution base module holding asdist and the Dirac class is not under
src, and per the spec only exact point-mass perturbations are supported, so
an operand either converts to a point mass with a known support or it does
not. -/

variable {α : Type}

/-- Parameters of a constructed Normal distribution: the Python class name
(used in error messages) and the stored mean and cov parameters. -/
structure NormalP (α : Type) where
  className : String
  mean : α
  cov : α
deriving DecidableEq

/-- The second operand of a binary operation, after conversion with asdist:
either a Dirac point mass with its support, or a distribution that is not a
point mass, of which only the Python type name matters. -/
inductive Operand (α : Type) where
  | dirac (support : α)
  | nonDirac (typeName : String)
deriving DecidableEq

/-- The Python exceptions raised by the arithmetic methods. -/
inductive PyErr where
  | notImplemented (msg : String)
  | zeroDivision (msg : String)
deriving DecidableEq

/-- A distribution returned by an arithmetic operation: a freshly
constructed Normal with the given parameters, or a Dirac point mass. -/
inductive DistResult (α : Type) where
  | normalD (mean cov : α)
  | diracD (support : α)
deriving DecidableEq

/-- Embedding of the addition method of Normal (normal.py lines 114 to 123):
a point-mass operand shifts the mean and leaves the covariance; any other
operand raises NotImplementedError naming the two types. -/
def Normal_add [Add α] (self : NormalP α) (other : Operand α) :
    Except PyErr (DistResult α) :=
  match other with
  | .dirac d => .ok (.normalD (self.mean + d) self.cov)
  | .nonDirac tn =>
    .error (.notImplemented ("Addition not implemented for "
      ++ self.className ++ " and " ++ tn ++ "."))

/-- Embedding of the subtraction method of Normal (normal.py lines 125 to
131): a point-mass operand is negated and added.  `Modelled from the spec:`
the Dirac class is not under src; negating a point mass negates its
support. -/
def Normal_sub [Add α] [Neg α] (self : NormalP α) (other : Operand α) :
    Except PyErr (DistResult α) :=
  match other with
  | .dirac d => Normal_add self (.dirac (-d))
  | .nonDirac tn =>
    .error (.notImplemented ("Subtraction not implemented for "
      ++ self.className ++ " and " ++ tn ++ "."))

/-- Embedding of the multiplication method of Normal (normal.py lines 133 to
146): a zero point mass collapses the distribution to a point mass at zero
times the mean; a nonzero point mass scales the mean and scales the
covariance by the square; any other operand raises NotImplementedError. -/
def Normal_mul [MonoidWithZero α] [DecidableEq α]
    (self : NormalP α) (other : Operand α) : Except PyErr (DistResult α) :=
  match other with
  | .dirac d =>
    if d = 0 then .ok (.diracD (0 * self.mean))
    else .ok (.normalD (self.mean * d) (self.cov * d ^ 2))
  | .nonDirac tn =>
    .error (.notImplemented ("Multiplication not implemented for "
      ++ self.className ++ " and " ++ tn ++ "."))

/-- Embedding of the division method of Normal (normal.py lines 148 to 157).
The test against the literal zero is modelled on the point-mass support;
`Modelled from the spec:` inversion of a Dirac point mass (its class is not
under src) is modelled as the point mass at the reciprocal support. -/
def Normal_truediv [Field α] [DecidableEq α]
    (self : NormalP α) (other : Operand α) : Except PyErr (DistResult α) :=
  match other with
  | .dirac d =>
    if d = 0 then .error (.zeroDivision "Division by zero not supported.")
    else Normal_mul self (.dirac d⁻¹)
  | .nonDirac tn =>
    .error (.notImplemented ("Division not implemented for "
      ++ self.className ++ " and " ++ tn ++ "."))

/-- Embedding of the reflected addition method (normal.py lines 164 to 170):
it delegates to the addition method for point masses; the error message
names the types in the reflected order. -/
def Normal_radd [Add α] (self : NormalP α) (other : Operand α) :
    Except PyErr (DistResult α) :=
  match other with
  | .dirac d => Normal_add self (.dirac d)
  | .nonDirac tn =>
    .error (.notImplemented ("Addition not implemented for "
      ++ tn ++ " and " ++ self.className ++ "."))

/-- Embedding of the unary negation method of Normal (normal.py lines 232 to
239): a fresh Normal with negated mean and the same covariance. -/
def Normal_neg [Neg α] (self : NormalP α) : NormalP α :=
  { self with mean := -self.mean }

/-- Embedding of the reflected subtraction method (normal.py lines 172 to
178): the negated distribution plus the point mass. -/
def Normal_rsub [Add α] [Neg α] (self : NormalP α) (other : Operand α) :
    Except PyErr (DistResult α) :=
  match other with
  | .dirac d => Normal_add (Normal_neg self) (.dirac d)
  | .nonDirac tn =>
    .error (.notImplemented ("Subtraction not implemented for "
      ++ tn ++ " and " ++ self.className ++ "."))

/-- Embedding of the reflected multiplication method (normal.py lines 180 to
187): it delegates to the multiplication method for point masses. -/
def Normal_rmul [MonoidWithZero α] [DecidableEq α]
    (self : NormalP α) (other : Operand α) : Except PyErr (DistResult α) :=
  match other with
  | .dirac d => Normal_mul self (.dirac d)
  | .nonDirac tn =>
    .error (.notImplemented ("Multiplication not implemented for "
      ++ tn ++ " and " ++ self.className ++ "."))

/-- Embedding of the reflected matrix multiplication method of the Normal
base class (normal.py lines 189 to 198).  Matrix transposition of the
point-mass support is abstracted as the function parameter tr. -/
def Normal_rmatmul [Mul α] (tr : α → α) (self : NormalP α)
    (other : Operand α) : Except PyErr (DistResult α) :=
  match other with
  | .dirac d => .ok (.normalD (d * self.mean) (d * (self.cov * tr d)))
  | .nonDirac tn =>
    .error (.notImplemented ("Matrix multiplication not implemented for "
      ++ tn ++ " and " ++ self.className ++ "."))

/-- Embedding of the reflected division method (normal.py lines 200 to 206).
For a point mass the source inverts the Normal distribution itself, a call
into the distribution base class that is not under src; its outcome is
abstracted as the parameter invRes.  Any other operand raises
NotImplementedError. -/
def Normal_rtruediv (invRes : Except PyErr (DistResult α))
    (self : NormalP α) (other : Operand α) : Except PyErr (DistResult α) :=
  match other with
  | .dirac _ => invRes
  | .nonDirac tn =>
    .error (.notImplemented ("Division not implemented for "
      ++ tn ++ " and " ++ self.className ++ "."))

/-- Embedding of the matrix multiplication method of the univariate subclass
(normal.py lines 298 to 309); the numpy squeeze applied to the results is
abstracted as the parameter sq. -/
def UnivariateNormal_matmul [Mul α] (sq tr : α → α) (self : NormalP α)
    (other : Operand α) : Except PyErr (DistResult α) :=
  match other with
  | .dirac d =>
    .ok (.normalD (sq (self.mean * d)) (sq (d * (self.cov * tr d))))
  | .nonDirac tn =>
    .error (.notImplemented ("Matrix multiplication not implemented for "
      ++ self.className ++ " and " ++ tn ++ "."))

/-- Embedding of the matrix multiplication method of the multivariate
subclass (normal.py lines 352 to 361). -/
def MultivariateNormal_matmul [Mul α] (tr : α → α) (self : NormalP α)
    (other : Operand α) : Except PyErr (DistResult α) :=
  match other with
  | .dirac d => .ok (.normalD (self.mean * d) (tr d * (self.cov * d)))
  | .nonDirac tn =>
    .error (.notImplemented ("Matrix multiplication not implemented for "
      ++ self.className ++ " and " ++ tn ++ "."))

/-- Embedding of the reflected matrix multiplication method of the
multivariate subclass (normal.py lines 363 to 372). -/
def MultivariateNormal_rmatmul [Mul α] (tr : α → α) (self : NormalP α)
    (other : Operand α) : Except PyErr (DistResult α) :=
  match other with
  | .dirac d => .ok (.normalD (d * self.mean) (d * (self.cov * tr d)))
  | .nonDirac tn =>
    .error (.notImplemented ("Matrix multiplication not implemented for "
      ++ tn ++ " and " ++ self.className ++ "."))

/-- Embedding of the matrix multiplication method of the matrix-variate
subclass (normal.py lines 427 to 435): a point-mass operand raises a bare
NotImplementedError; any other operand raises NotImplementedError naming
the types. -/
def MatrixvariateNormal_matmul (self : NormalP α) (other : Operand α) :
    Except PyErr (DistResult α) :=
  match other with
  | .dirac _ => .error (.notImplemented "")
  | .nonDirac tn =>
    .error (.notImplemented ("Matrix multiplication not implemented for "
      ++ self.className ++ " and " ++ tn ++ "."))

/-- Embedding of the matrix multiplication method of the operator-variate
subclass (normal.py lines 512 to 522).  The Kronecker product of the
identity with the point-mass support, built from the linear_operators
module that is not under src, is abstracted as the parameter kronId. -/
def OperatorvariateNormal_matmul [Mul α] (tr kronId : α → α)
    (self : NormalP α) (other : Operand α) : Except PyErr (DistResult α) :=
  match other with
  | .dirac d =>
    .ok (.normalD (self.mean * d) (tr (kronId d) * (self.cov * kronId d)))
  | .nonDirac tn =>
    .error (.notImplemented ("Matrix multiplication not implemented for "
      ++ self.className ++ " and " ++ tn ++ "."))

/-- Embedding of the augmented in-place addition method (normal.py lines 213
to 214): it raises a bare NotImplementedError for every operand. -/
def Normal_iadd (_self : NormalP α) (_other : Operand α) :
    Except PyErr (DistResult α) :=
  .error (.notImplemented "")

/-- Embedding of the augmented in-place subtraction method (normal.py lines
216 to 217). -/
def Normal_isub (_self : NormalP α) (_other : Operand α) :
    Except PyErr (DistResult α) :=
  .error (.notImplemented "")

/-- Embedding of the augmented in-place multiplication method (normal.py
lines 219 to 220). -/
def Normal_imul (_self : NormalP α) (_other : Operand α) :
    Except PyErr (DistResult α) :=
  .error (.notImplemented "")

/-- Embedding of the augmented in-place matrix multiplication method
(normal.py lines 222 to 223). -/
def Normal_imatmul (_self : NormalP α) (_other : Operand α) :
    Except PyErr (DistResult α) :=
  .error (.notImplemented "")

/-- Embedding of the augmented in-place division method (normal.py lines 225
to 226). -/
def Normal_itruediv (_self : NormalP α) (_other : Operand α) :
    Except PyErr (DistResult α) :=
  .error (.notImplemented "")

/-- Embedding of the augmented in-place exponentiation method (normal.py
lines 228 to 229). -/
def Normal_ipow (_self : NormalP α) (_other : Operand α) :
    Except PyErr (DistResult α) :=
  .error (.notImplemented "")

/-! Sampling of the symmetric-Kronecker identical-factors variant
(normal.py lines 539 to 561).  Exact rational arithmetic stands in for
floating point; the standard-normal draw and the external scipy Cholesky
factorisation are inputs. -/

/-- Embedding of the damping constant added to the Kronecker factor before
the Cholesky factorisation (normal.py line 547). -/
def eps : ℚ := (10 : ℚ) ^ (-12 : ℤ)

/-- `Modelled from the spec:` the Kronecker operator of the
linear_operators module is not under src.  Per the spec it applies the
product of two factors to a vector by reshaping the vector into a matrix,
multiplying by the left factor on the left and by the transposed right
factor on the right, and reshaping back.  Vectors over the index pairs
stand for the raveled vectors of length n squared. -/
def kronAction {n : ℕ} (A B : Matrix (Fin n) (Fin n) ℚ)
    (v : Fin n × Fin n → ℚ) : Fin n × Fin n → ℚ :=
  fun p => ∑ k : Fin n, A p.1 k * ∑ l : Fin n, v (k, l) * B p.2 l

/-- `Modelled from the spec:` the Symmetrize operator of the
linear_operators module is not under src.  Per the spec it projects onto
the symmetric subspace: it reshapes the vector into a square matrix,
averages the matrix with its transpose and reshapes back. -/
def symmetrizeAction {n : ℕ} (v : Fin n × Fin n → ℚ) : Fin n × Fin n → ℚ :=
  fun p => (v p + v (p.2, p.1)) / 2

/-- Embedding of the sample method of the symmetric-Kronecker
identical-factors Normal subclass (normal.py lines 539 to 561) for one
draw: z is the vector of n squared standard-normal entries drawn by the
source, chol stands for the external lower Cholesky factorisation by
scipy, covA is the dense single Kronecker factor of the covariance and
mean is the dense mean matrix.  The result is the mean plus the reshaped
image of z under the Symmetrize operator composed with the Kronecker
product of the Cholesky factor with itself. -/
def SKIFNormal_sample {n : ℕ}
    (chol : Matrix (Fin n) (Fin n) ℚ → Matrix (Fin n) (Fin n) ℚ)
    (mean covA : Matrix (Fin n) (Fin n) ℚ) (z : Fin n × Fin n → ℚ) :
    Matrix (Fin n) (Fin n) ℚ :=
  let cholA := chol (covA + eps • (1 : Matrix (Fin n) (Fin n) ℚ))
  let scaled := symmetrizeAction (kronAction cholA cholA z)
  Matrix.of fun i j => mean i j + scaled (i, j)

/-- The Kronecker product of two square matrices as one matrix over index
pairs, used to state the C2 claim. -/
def kronMatrix {n : ℕ} (A B : Matrix (Fin n) (Fin n) ℚ) :
    Matrix (Fin n × Fin n) (Fin n × Fin n) ℚ :=
  Matrix.of fun p q => A p.1 q.1 * B p.2 q.2

/-- Statement of the C2 claim as a function: with L the Cholesky factor of
the dense Kronecker factor damped by ten to the minus twelve times the
identity, the sample is the mean plus the reshaping of the symmetrisation
of the matrix-vector product of the Kronecker product of L with itself
applied to the standard-normal draw. -/
def c2ClaimSample {n : ℕ}
    (chol : Matrix (Fin n) (Fin n) ℚ → Matrix (Fin n) (Fin n) ℚ)
    (mean covA : Matrix (Fin n) (Fin n) ℚ) (z : Fin n × Fin n → ℚ) :
    Matrix (Fin n) (Fin n) ℚ :=
  let L := chol (covA + ((1 : ℚ) / 10 ^ 12) • (1 : Matrix (Fin n) (Fin n) ℚ))
  let w := (kronMatrix L L).mulVec z
  Matrix.of fun i j => mean i j + (w (i, j) + w (j, i)) / 2

/-! Directly computed posterior formulas of the matrix-based probabilistic
linear solver, from the test suite
(test_linearsolvers.py, test_posterior_distribution_parameters,
lines 174 to 238). -/

/-- Embedding of numpy.linalg.solve over the rationals: the inverse through
the adjugate, applied to the right-hand side. -/
def npSolve {k n : ℕ} (M : Matrix (Fin k) (Fin k) ℚ)
    (B : Matrix (Fin k) (Fin n) ℚ) : Matrix (Fin k) (Fin n) ℚ :=
  ((M.det)⁻¹ • M.adjugate) * B

/-- Embedding of the function posterior_mean defined inside the test
test_posterior_distribution_parameters (test_linearsolvers.py lines 205 to
211): given the prior mean A0, the prior covariance Kronecker factor W, the
accumulated search directions S and observations Y, it forms the residual
Delta, solves for the transposed U and assembles the rank-2 update. -/
def posterior_mean {n k : ℕ} (A0 W : Matrix (Fin n) (Fin n) ℚ)
    (S Y : Matrix (Fin n) (Fin k) ℚ) : Matrix (Fin n) (Fin n) ℚ :=
  let Delta := Y - A0 * S
  let U_T := npSolve (Sᵀ * (W * S)) (W * S)ᵀ
  let U := U_Tᵀ
  A0 + Delta * U_T + U * Deltaᵀ - U * Sᵀ * Delta * U_T

/-- Embedding of the function posterior_cov_kronfac defined inside the same
test (test_linearsolvers.py lines 224 to 228). -/
def posterior_cov_kronfac {n k : ℕ} (W : Matrix (Fin n) (Fin n) ℚ)
    (S : Matrix (Fin n) (Fin k) ℚ) : Matrix (Fin n) (Fin n) ℚ :=
  let U_AT := npSolve (Sᵀ * (W * S)) (W * S)ᵀ
  W * (1 - S * U_AT)

/-- `Modelled from the spec:` the solver itself is not under src, only its
tests are.  The spec gives the closed form of the posterior mean of the
solver belief: with Delta the observation residual and U equal to W times S
times the inverse of S transposed times W times S, the posterior mean is
the prior mean plus Delta times U transposed plus U times Delta transposed
minus U times S transposed times Delta times U transposed.  Stated with
the Mathlib matrix inverse. -/
noncomputable def solverPosteriorMeanSpec {n k : ℕ}
    (A0 W : Matrix (Fin n) (Fin n) ℚ) (S Y : Matrix (Fin n) (Fin k) ℚ) :
    Matrix (Fin n) (Fin n) ℚ :=
  let Delta := Y - A0 * S
  let U := (W * S) * (Sᵀ * W * S)⁻¹
  A0 + Delta * Uᵀ + U * Deltaᵀ - U * (Sᵀ * Delta) * Uᵀ

/-- `Modelled from the spec:` the posterior covariance Kronecker factor of
the solver belief, per the spec equal to W times the difference of the
identity and S times U transposed. -/
noncomputable def solverPosteriorCovFacSpec {n k : ℕ}
    (W : Matrix (Fin n) (Fin n) ℚ) (S : Matrix (Fin n) (Fin k) ℚ) :
    Matrix (Fin n) (Fin n) ℚ :=
  let U := (W * S) * (Sᵀ * W * S)⁻¹
  W * (1 - S * Uᵀ)

/-! The random-variable list wrapper
(src/probnum/prob/randomvariablelist.py). -/

/-- `Modelled from the spec:` the RandomVariable wrapper class is not under
src.  For the list wrapper only its four statistics accessors matter: the
mean and covariance of the variable and the variance and standard deviation
of its distribution, all values of one statistics type. -/
structure RandVar (μ : Type) where
  mean : μ
  cov : μ
  var : μ
  std : μ
deriving DecidableEq

/-- Embedding of the list subclass holding random variables
(randomvariablelist.py lines 4 to 24). -/
structure RandomVariableList (μ : Type) where
  elems : List (RandVar μ)
deriving DecidableEq

/-- Embedding of the mean accessor: numpy stack of the means of the
elements, in list order. -/
def RandomVariableList.mean {μ : Type} (l : RandomVariableList μ) :
    List μ :=
  l.elems.map RandVar.mean

/-- Embedding of the cov accessor. -/
def RandomVariableList.cov {μ : Type} (l : RandomVariableList μ) :
    List μ :=
  l.elems.map RandVar.cov

/-- Embedding of the var accessor. -/
def RandomVariableList.var {μ : Type} (l : RandomVariableList μ) :
    List μ :=
  l.elems.map RandVar.var

/-- Embedding of the std accessor. -/
def RandomVariableList.std {μ : Type} (l : RandomVariableList μ) :
    List μ :=
  l.elems.map RandVar.std

/-- Embedding of indexing with a slice (randomvariablelist.py lines 19 to
24) for a slice from a to b with unit step and nonnegative bounds: the
Python list slice result, wrapped back into the list subclass. -/
def RandomVariableList.getSlice {μ : Type} (l : RandomVariableList μ)
    (a b : ℕ) : RandomVariableList μ :=
  ⟨(l.elems.drop a).take (b - a)⟩

/-- Embedding of indexing with a single in-range position: the underlying
list element itself, not wrapped. -/
def RandomVariableList.getItem {μ : Type} (l : RandomVariableList μ)
    (i : ℕ) (h : i < l.elems.length) : RandVar μ :=
  l.elems.get ⟨i, h⟩

/-! ## Theorems -/

/-- C1: for every construction of a Normal distribution, the variant is
selected solely from the types and shapes of mean and cov.  A scalar mean
and cov, or shapes among the empty shape, one element and one times one,
yield the univariate variant; dense or sparse mean and cov yield the
multivariate variant when the mean is one-dimensional and the matrix-variate
variant when the mean is two-dimensional; a LinearOperator-typed mean or cov
yields the operator-variate variant, specialised to the symmetric-Kronecker
identical-factors variant exactly when cov is a SymmetricKronecker whose two
factors are identical; any other combination of mean and cov types raises a
ValueError naming the two types.  Each case carries the negations of the
earlier cases, matching the textual order of the dispatch. -/
theorem c1_normal_variant_dispatch (mean cov : PyKind) :
    (univCond mean cov → normalNew mean cov = .ok .univariate)
    ∧ (¬ univCond mean cov → mean.isDenseOrSparse → cov.isDenseOrSparse →
        ((mean.npShape.length = 1 → normalNew mean cov = .ok .multivariate)
          ∧ (mean.npShape.length = 2 →
              normalNew mean cov = .ok .matrixvariate)))
    ∧ (¬ univCond mean cov → ¬ (mean.isDenseOrSparse ∧ cov.isDenseOrSparse) →
        (mean.isLinearOperator ∨ cov.isLinearOperator) →
        ((cov.isSymKronABequal →
            normalNew mean cov = .ok .symmetricKroneckerIdenticalFactors)
          ∧ (¬ cov.isSymKronABequal →
              normalNew mean cov = .ok .operatorvariate)))
    ∧ (¬ univCond mean cov → ¬ (mean.isDenseOrSparse ∧ cov.isDenseOrSparse) →
        ¬ (mean.isLinearOperator ∨ cov.isLinearOperator) →
        normalNew mean cov
          = .error ("Cannot instantiate normal distributions with mean of type "
              ++ mean.typeName ++ " and covariance of type "
              ++ cov.typeName ++ ".")) := by
  refine ⟨?_, ?_, ?_, ?_⟩
  · intro h
    unfold normalNew
    rw [if_pos h]
  · intro h hm hc
    constructor
    · intro hlen
      unfold normalNew
      rw [if_neg h, if_pos ⟨hm, hc⟩, if_pos hlen]
    · intro hlen
      unfold normalNew
      rw [if_neg h, if_pos ⟨hm, hc⟩, if_neg (by omega)]
  · intro h hnd hlin
    constructor
    · intro hs
      unfold normalNew
      rw [if_neg h, if_neg hnd, if_pos hlin, if_pos hs]
    · intro hs
      unfold normalNew
      rw [if_neg h, if_neg hnd, if_pos hlin, if_neg hs]
  · intro h hnd hnl
    unfold normalNew
    rw [if_neg h, if_neg hnd, if_neg hnl]

/-- Witness for C1: a linear-operator mean with an identical-factors
symmetric Kronecker covariance dispatches to the specialised variant, and
two scalars dispatch to the univariate variant. -/
theorem c1_normal_variant_dispatch_witness :
    normalNew (.linop [2, 2]) (.symkron true [4, 4])
        = .ok .symmetricKroneckerIdenticalFactors
    ∧ normalNew .scalar .scalar = .ok .univariate := by
  constructor
  · exact ((c1_normal_variant_dispatch (.linop [2, 2]) (.symkron true [4, 4])).2.2.1
      (by decide) (by decide) (by decide)).1 (by decide)
  · exact (c1_normal_variant_dispatch .scalar .scalar).1 (by decide)

/-- C3: constructing a Normal whose mean is a dense array and whose cov is a
dense matrix raises a descriptive ValueError whenever cov is not
two-dimensional or whenever a dimension of cov differs from the total number
of elements of the mean, and succeeds exactly when both dimensions of cov
equal the flattened size of the mean; this holds for the multivariate and
the matrix-variate constructor alike. -/
theorem c3_dense_covariance_validation (meanShape covShape : List Nat) :
    MultivariateNormal_init meanShape covShape
      = c3ClaimInit "Covariance must be a 2D matrix or linear operator."
          ("Shape mismatch of mean and covariance. Total number of elements of the mean must match "
            ++ "the first and second dimension of the covariance.")
          meanShape covShape
    ∧ MatrixvariateNormal_init meanShape covShape
      = c3ClaimInit "Covariance must be a 2D matrix."
          ("Shape mismatch of mean and covariance. Total number of elements of the mean must match "
            ++ "the first and second dimension of the covariance.")
          meanShape covShape := by
  constructor <;>
  · simp only [MultivariateNormal_init, MatrixvariateNormal_init, c3ClaimInit]
    rcases covShape with _ | ⟨c0, _ | ⟨c1, rest⟩⟩
    · rfl
    · rfl
    · rcases rest with _ | ⟨c2, rest2⟩
      · simp only [ne_eq, List.length_cons, List.length_nil, List.cons.injEq,
          and_true, List.headD, List.head?, List.drop_succ_cons, List.drop_zero,
          Option.getD]
        split_ifs <;> first | rfl | omega
      · rfl

/-- C4: the operator-variate constructor with a mean of shape m by n and a
Kronecker covariance succeeds exactly when factor A has shape m by m and
factor B has shape n by n, raising a ValueError otherwise; with a symmetric
Kronecker covariance (square factors of one dimension p) it succeeds exactly
when the mean is square and p equals the mean dimension, raising a
ValueError otherwise; and the identical-factors subclass performs the same
check. -/
theorem c4_operatorvariate_covariance_validation
    (m n a0 a1 b0 b1 p : Nat) :
    (OperatorvariateNormal_init m n (.kron a0 a1 b0 b1)
      = if a0 = m ∧ a1 = m ∧ b0 = n ∧ b1 = n then .ok ()
        else .error "Kronecker structured covariance must have factors with the same shape as the mean.")
    ∧ (OperatorvariateNormal_init m n (.symkron p)
      = if m = n ∧ p = n then .ok ()
        else .error ("Normal distributions with symmetric Kronecker structured covariance must have square mean"
          ++ " and square covariance factors with matching dimensions."))
    ∧ (SKIFNormal_init m n p
      = if m = n ∧ p = n then .ok ()
        else .error ("Normal distributions with symmetric Kronecker structured covariance must have square mean"
          ++ " and square covariance factors with matching dimensions.")) := by
  refine ⟨?_, ?_, ?_⟩ <;>
    simp only [OperatorvariateNormal_init, SKIFNormal_init] <;>
    split_ifs <;> first | rfl | omega

/-- C6: for every Normal belief, the binary arithmetic operations succeed
only when the other operand converts to an exact point mass: for any operand
that is not a point mass, addition, subtraction, multiplication, division
and matrix multiplication, in both operand orders and in every subclass,
fail with a NotImplementedError naming the unsupported combination of
types. -/
theorem c6_nonpointmass_rejection [Field α] [DecidableEq α]
    (self : NormalP α) (tn : String) (tr sq kronId : α → α)
    (invRes : Except PyErr (DistResult α)) :
    Normal_add self (.nonDirac tn)
      = .error (.notImplemented ("Addition not implemented for "
          ++ self.className ++ " and " ++ tn ++ "."))
    ∧ Normal_sub self (.nonDirac tn)
      = .error (.notImplemented ("Subtraction not implemented for "
          ++ self.className ++ " and " ++ tn ++ "."))
    ∧ Normal_mul self (.nonDirac tn)
      = .error (.notImplemented ("Multiplication not implemented for "
          ++ self.className ++ " and " ++ tn ++ "."))
    ∧ Normal_truediv self (.nonDirac tn)
      = .error (.notImplemented ("Division not implemented for "
          ++ self.className ++ " and " ++ tn ++ "."))
    ∧ Normal_radd self (.nonDirac tn)
      = .error (.notImplemented ("Addition not implemented for "
          ++ tn ++ " and " ++ self.className ++ "."))
    ∧ Normal_rsub self (.nonDirac tn)
      = .error (.notImplemented ("Subtraction not implemented for "
          ++ tn ++ " and " ++ self.className ++ "."))
    ∧ Normal_rmul self (.nonDirac tn)
      = .error (.notImplemented ("Multiplication not implemented for "
          ++ tn ++ " and " ++ self.className ++ "."))
    ∧ Normal_rmatmul tr self (.nonDirac tn)
      = .error (.notImplemented ("Matrix multiplication not implemented for "
          ++ tn ++ " and " ++ self.className ++ "."))
    ∧ Normal_rtruediv invRes self (.nonDirac tn)
      = .error (.notImplemented ("Division not implemented for "
          ++ tn ++ " and " ++ self.className ++ "."))
    ∧ UnivariateNormal_matmul sq tr self (.nonDirac tn)
      = .error (.notImplemented ("Matrix multiplication not implemented for "
          ++ self.className ++ " and " ++ tn ++ "."))
    ∧ MultivariateNormal_matmul tr self (.nonDirac tn)
      = .error (.notImplemented ("Matrix multiplication not implemented for "
          ++ self.className ++ " and " ++ tn ++ "."))
    ∧ MultivariateNormal_rmatmul tr self (.nonDirac tn)
      = .error (.notImplemented ("Matrix multiplication not implemented for "
          ++ tn ++ " and " ++ self.className ++ "."))
    ∧ MatrixvariateNormal_matmul self (.nonDirac tn)
      = .error (.notImplemented ("Matrix multiplication not implemented for "
          ++ self.className ++ " and " ++ tn ++ "."))
    ∧ OperatorvariateNormal_matmul tr kronId self (.nonDirac tn)
      = .error (.notImplemented ("Matrix multiplication not implemented for "
          ++ self.className ++ " and " ++ tn ++ ".")) :=
  ⟨rfl, rfl, rfl, rfl, rfl, rfl, rfl, rfl, rfl, rfl, rfl, rfl, rfl, rfl⟩

/-- C7: a constructed Normal is never mutated: every augmented in-place
assignment operator raises NotImplementedError unconditionally, for every
operand including point masses, and the supported operations return a newly
constructed distribution built from the stored parameters, which are left
unchanged.  The embedding is purely functional, so the absence of any
mutating operation together with the unconditional failure of the in-place
operators expresses the immutability of the variant and of the stored
parameters. -/
theorem c7_no_inplace_mutation [CommRing α] [DecidableEq α]
    (self : NormalP α) (other : Operand α) (d : α) :
    Normal_iadd self other = .error (.notImplemented "")
    ∧ Normal_isub self other = .error (.notImplemented "")
    ∧ Normal_imul self other = .error (.notImplemented "")
    ∧ Normal_imatmul self other = .error (.notImplemented "")
    ∧ Normal_itruediv self other = .error (.notImplemented "")
    ∧ Normal_ipow self other = .error (.notImplemented "")
    ∧ Normal_add self (.dirac d) = .ok (.normalD (self.mean + d) self.cov)
    ∧ Normal_mul self (.dirac d)
      = (if d = 0 then .ok (.diracD (0 * self.mean))
         else .ok (.normalD (self.mean * d) (self.cov * d ^ 2))) :=
  ⟨rfl, rfl, rfl, rfl, rfl, rfl, rfl, rfl⟩

/-- C8: adding an exact point mass to a Normal returns a new Normal whose
mean is shifted by the support and whose covariance parameter is exactly the
covariance of the original; subtracting shifts by the negated support. -/
theorem c8_pointmass_shift [AddGroup α] (self : NormalP α) (d : α) :
    Normal_add self (.dirac d) = .ok (.normalD (self.mean + d) self.cov)
    ∧ Normal_sub self (.dirac d)
      = .ok (.normalD (self.mean - d) self.cov) := by
  refine ⟨rfl, ?_⟩
  simp only [Normal_sub, Normal_add, sub_eq_add_neg]

/-- C9: multiplying a Normal by an exact scalar point mass collapses to a
Dirac point mass at zero times the mean when the scalar is zero, and
otherwise returns a Normal with mean scaled by the scalar and covariance
scaled by its square. -/
theorem c9_pointmass_scaling [CommRing α] [DecidableEq α]
    (self : NormalP α) (d : α) :
    (d = 0 → Normal_mul self (.dirac d) = .ok (.diracD (0 * self.mean)))
    ∧ (d ≠ 0 → Normal_mul self (.dirac d)
        = .ok (.normalD (self.mean * d) (self.cov * d ^ 2))) := by
  constructor
  · intro h
    simp [Normal_mul, h]
  · intro h
    simp [Normal_mul, h]

/-- Witness for C9 over the integers: scaling by the zero point mass gives
the degenerate point mass, scaling by two scales mean and covariance. -/
theorem c9_pointmass_scaling_witness :
    Normal_mul (NormalP.mk "Normal" (3 : ℤ) 5) (.dirac 0)
      = .ok (.diracD (0 * 3))
    ∧ Normal_mul (NormalP.mk "Normal" (3 : ℤ) 5) (.dirac 2)
      = .ok (.normalD (3 * 2) (5 * 2 ^ 2)) :=
  ⟨(c9_pointmass_scaling (NormalP.mk "Normal" (3 : ℤ) 5) 0).1 rfl,
    (c9_pointmass_scaling (NormalP.mk "Normal" (3 : ℤ) 5) 2).2 (by decide)⟩

/-- C2: each sample of the symmetric-Kronecker identical-factors variant is
the mean plus the reshaping of the image of the standard-normal draw under
the symmetrising operator composed with the Kronecker product of L with
itself, where L is the Cholesky factor of the dense Kronecker covariance
factor damped by ten to the minus twelve times the identity. -/
theorem c2_skif_sampling_formula {n : ℕ}
    (chol : Matrix (Fin n) (Fin n) ℚ → Matrix (Fin n) (Fin n) ℚ)
    (mean covA : Matrix (Fin n) (Fin n) ℚ) (z : Fin n × Fin n → ℚ) :
    SKIFNormal_sample chol mean covA z = c2ClaimSample chol mean covA z := by
  have heps : eps = (1 : ℚ) / 10 ^ 12 := by
    norm_num [eps]
  unfold SKIFNormal_sample c2ClaimSample
  rw [heps]
  have hkron : ∀ (L : Matrix (Fin n) (Fin n) ℚ) (a b : Fin n),
      kronAction L L z (a, b) = (kronMatrix L L).mulVec z (a, b) := by
    intro L a b
    unfold kronAction kronMatrix Matrix.mulVec
    simp only [Matrix.of_apply, dotProduct]
    rw [Fintype.sum_prod_type]
    refine Finset.sum_congr rfl fun k _ => ?_
    rw [Finset.mul_sum]
    refine Finset.sum_congr rfl fun l _ => ?_
    ring
  ext i j
  simp only [Matrix.of_apply, symmetrizeAction, hkron]

/-- The embedded numpy solve agrees with multiplication by the Mathlib
matrix inverse, over the rationals. -/
theorem npSolve_eq_inv_mul {k m : ℕ} (M : Matrix (Fin k) (Fin k) ℚ)
    (B : Matrix (Fin k) (Fin m) ℚ) : npSolve M B = M⁻¹ * B := by
  unfold npSolve
  rw [Matrix.inv_def, Ring.inverse_eq_inv]

/-- The matrix whose inverse the directly computed posterior formulas take,
transposed: with a symmetric weighting factor it is symmetric. -/
theorem c5aux_gram_symm {n k : ℕ} (W : Matrix (Fin n) (Fin n) ℚ)
    (S : Matrix (Fin n) (Fin k) ℚ) (hW : Wᵀ = W) :
    (Sᵀ * W * S)ᵀ = Sᵀ * W * S := by
  rw [Matrix.transpose_mul, Matrix.transpose_mul, Matrix.transpose_transpose,
    hW, ← Matrix.mul_assoc]

/-- The right-hand side solved for in the test (the transposed U) equals the
transpose of the U of the specification formula, provided the weighting
factor is symmetric. -/
theorem c5aux_U_eq {n k : ℕ} (W : Matrix (Fin n) (Fin n) ℚ)
    (S : Matrix (Fin n) (Fin k) ℚ) (hW : Wᵀ = W) :
    npSolve (Sᵀ * (W * S)) (W * S)ᵀ
      = ((W * S) * (Sᵀ * W * S)⁻¹)ᵀ := by
  have hinvT : ((Sᵀ * W * S)⁻¹)ᵀ = (Sᵀ * W * S)⁻¹ := by
    rw [Matrix.transpose_nonsing_inv, c5aux_gram_symm W S hW]
  have hRHS : ((W * S) * (Sᵀ * W * S)⁻¹)ᵀ
      = (Sᵀ * W * S)⁻¹ * (W * S)ᵀ := by
    rw [Matrix.transpose_mul, hinvT]
  rw [npSolve_eq_inv_mul, hRHS, ← Matrix.mul_assoc]

/-- C5: the posterior mean and the posterior covariance Kronecker factor
computed directly in the solver test equal the closed forms of the
specification, in which U is W times S times the inverse of the Gram matrix
of S under W, both for the belief over the matrix and, with the roles of
the search directions and the observations swapped, for the belief over its
inverse, provided the two weighting factors are symmetric. -/
theorem c5_solver_posterior_formulas {n k : ℕ}
    (A0 W H0 WH : Matrix (Fin n) (Fin n) ℚ)
    (S Y : Matrix (Fin n) (Fin k) ℚ)
    (hW : Wᵀ = W) (hWH : WHᵀ = WH) :
    posterior_mean A0 W S Y = solverPosteriorMeanSpec A0 W S Y
    ∧ posterior_cov_kronfac W S = solverPosteriorCovFacSpec W S
    ∧ posterior_mean H0 WH Y S = solverPosteriorMeanSpec H0 WH Y S
    ∧ posterior_cov_kronfac WH Y = solverPosteriorCovFacSpec WH Y := by
  have hU := c5aux_U_eq W S hW
  have hUH := c5aux_U_eq WH Y hWH
  refine ⟨?_, ?_, ?_, ?_⟩ <;>
    simp only [posterior_mean, solverPosteriorMeanSpec, posterior_cov_kronfac,
      solverPosteriorCovFacSpec, hU, hUH, Matrix.transpose_transpose,
      Matrix.mul_assoc]

/-- Witness for C5: one-dimensional identity data, for which the symmetry
hypotheses hold definitionally. -/
theorem c5_solver_posterior_formulas_witness :
    ((1 : Matrix (Fin 1) (Fin 1) ℚ)ᵀ = 1)
    ∧ (posterior_mean 1 1 (1 : Matrix (Fin 1) (Fin 1) ℚ)
            (1 : Matrix (Fin 1) (Fin 1) ℚ)
          = solverPosteriorMeanSpec 1 1 (1 : Matrix (Fin 1) (Fin 1) ℚ)
              (1 : Matrix (Fin 1) (Fin 1) ℚ)
        ∧ posterior_cov_kronfac 1 (1 : Matrix (Fin 1) (Fin 1) ℚ)
          = solverPosteriorCovFacSpec 1 (1 : Matrix (Fin 1) (Fin 1) ℚ)
        ∧ posterior_mean 1 1 (1 : Matrix (Fin 1) (Fin 1) ℚ)
            (1 : Matrix (Fin 1) (Fin 1) ℚ)
          = solverPosteriorMeanSpec 1 1 (1 : Matrix (Fin 1) (Fin 1) ℚ)
              (1 : Matrix (Fin 1) (Fin 1) ℚ)
        ∧ posterior_cov_kronfac 1 (1 : Matrix (Fin 1) (Fin 1) ℚ)
          = solverPosteriorCovFacSpec 1 (1 : Matrix (Fin 1) (Fin 1) ℚ)) :=
  ⟨Matrix.transpose_one,
    c5_solver_posterior_formulas 1 1 1 1 (1 : Matrix (Fin 1) (Fin 1) ℚ)
      (1 : Matrix (Fin 1) (Fin 1) ℚ) Matrix.transpose_one
      Matrix.transpose_one⟩

/-- C10: for every random-variable list, indexing with a slice returns a
random-variable list again (holding the sliced elements), indexing with a
single position returns the element itself, and the accessors for mean,
covariance, variance and standard deviation return the per-element
statistics stacked in list order, compatibly with slicing. -/
theorem c10_randomvariablelist_access {μ : Type}
    (l : RandomVariableList μ) (a b : ℕ) :
    (l.getSlice a b).elems = (l.elems.drop a).take (b - a)
    ∧ (l.getSlice a b).mean = (l.mean.drop a).take (b - a)
    ∧ (l.getSlice a b).cov = (l.cov.drop a).take (b - a)
    ∧ (l.getSlice a b).var = (l.var.drop a).take (b - a)
    ∧ (l.getSlice a b).std = (l.std.drop a).take (b - a)
    ∧ l.mean = l.elems.map RandVar.mean
    ∧ l.cov = l.elems.map RandVar.cov
    ∧ l.var = l.elems.map RandVar.var
    ∧ l.std = l.elems.map RandVar.std
    ∧ (∀ i : ℕ, ∀ h : i < l.elems.length,
        l.getItem i h = l.elems.get ⟨i, h⟩) := by
  refine ⟨rfl, ?_, ?_, ?_, ?_, rfl, rfl, rfl, rfl, fun i h => rfl⟩ <;>
    simp [RandomVariableList.getSlice, RandomVariableList.mean,
      RandomVariableList.cov, RandomVariableList.var, RandomVariableList.std,
      List.map_take, List.map_drop]

/-- Witness for C10: a concrete two-element list over the integers. -/
theorem c10_randomvariablelist_access_witness :
    (RandomVariableList.mk
        [RandVar.mk (1 : ℤ) 2 3 4, RandVar.mk 5 6 7 8]).getItem 1 (by decide)
      = RandVar.mk 5 6 7 8
    ∧ ((RandomVariableList.mk
        [RandVar.mk (1 : ℤ) 2 3 4, RandVar.mk 5 6 7 8]).getSlice 0 1).mean
      = [1] := by
  have h := c10_randomvariablelist_access
    (RandomVariableList.mk [RandVar.mk (1 : ℤ) 2 3 4, RandVar.mk 5 6 7 8]) 0 1
  exact ⟨(h.2.2.2.2.2.2.2.2.2 1 (by decide)).trans rfl, h.2.1.trans rfl⟩

end Probnum
